import Mathlib

/-!
Verification of the Swolez product-catalog backend (src/main.py, src/schemas.py).

Numbers that the Python code stores as floats (`price`, `rating`) are embedded
as rationals; the claims only compare them with the constants 0 and 5, where
float rounding plays no role.  Fallible handler code is embedded as functions
into `Except ApiError`; the document-store adapter (`database.py`, imported by
`main.py` but not part of src/) is modelled from the spec.
-/

namespace Swolez

/-- The fixed `category` enumeration of `schemas.py` (`Literal` on line 36/51). -/
def categoryEnum : List String := ["tops", "bottoms", "hoodies", "accessories"]

/-- The fixed `line` enumeration of `schemas.py` (`Literal` on line 37/52). -/
def lineEnum : List String := ["gymwear", "streetwear"]

/-- The fixed `sizes` enumeration of `schemas.py` (`Literal` on line 40/55). -/
def sizeEnum : List String := ["XS", "S", "M", "L", "XL", "XXL"]

/-- Modelled from the spec: pydantic's `HttpUrl` field type (library code, not
part of this repository) accepts exactly the well-formed URLs: an `http` or
`https` scheme followed by a nonempty host part. -/
def isHttpUrl (s : String) : Bool :=
  (s.data.take 7 == "http://".data && decide (7 < s.data.length))
  || (s.data.take 8 == "https://".data && decide (8 < s.data.length))

/-- A product document as stored in the `product` collection: all fields of the
`Product` / `ProductCreate` pydantic models, with defaults already materialised
(every writer — `create_product` and `seed_products` — stores all fields). -/
structure RawDoc where
  title : String
  description : Option String
  price : ℚ
  category : String
  line : String
  images : List String
  colors : List String
  sizes : List String
  in_stock : Bool
  featured : Bool
  rating : Option ℚ
  tags : List String
deriving DecidableEq, Repr

/-- A typed request body for `POST /api/products` before pydantic validation:
`none` in an optional field means the field was omitted from the JSON body. -/
structure RawPayload where
  title : String
  description : Option String := none
  price : ℚ
  category : String
  line : String
  images : Option (List String) := none
  colors : Option (List String) := none
  sizes : Option (List String) := none
  in_stock : Option Bool := none
  featured : Option Bool := none
  rating : Option ℚ := none
  tags : Option (List String) := none
deriving DecidableEq, Repr

/-- Validation by the relaxed write schema `ProductCreate` (schemas.py lines
47-59): checks the `category`, `line` and `sizes` enumerations and applies the
defaults; it imposes no constraint on `price`, `rating` or `images`. -/
def productCreateValidate (p : RawPayload) : Option RawDoc :=
  if categoryEnum.contains p.category && lineEnum.contains p.line
      && (p.sizes.getD []).all (fun s => sizeEnum.contains s) then
    some {
      title := p.title
      description := p.description
      price := p.price
      category := p.category
      line := p.line
      images := p.images.getD []
      colors := p.colors.getD []
      sizes := p.sizes.getD []
      in_stock := p.in_stock.getD true
      featured := p.featured.getD false
      rating := p.rating
      tags := p.tags.getD [] }
  else none

/-- Validation by the strict read schema `Product` (schemas.py lines 28-44):
enumerations, `price >= 0` (`ge=0`), every image a well-formed `HttpUrl`, and
`rating` in `[0, 5]` (`ge=0, le=5`) when present. -/
def productValidate (d : RawDoc) : Bool :=
  categoryEnum.contains d.category && lineEnum.contains d.line
  && d.sizes.all (fun s => sizeEnum.contains s)
  && decide (0 ≤ d.price)
  && d.images.all isHttpUrl
  && (match d.rating with
      | none => true
      | some r => decide (0 ≤ r) && decide (r ≤ 5))

/-- The process-wide store state behind the global `db` handle: the `product`
collection as a list of (store-assigned identifier, document) pairs, plus a
counter for fresh identifiers. -/
structure DbState where
  product : List (String × RawDoc)
  nextId : Nat
deriving DecidableEq, Repr

/-- The empty store. -/
def emptyDb : DbState := { product := [], nextId := 0 }

/-- Modelled from the spec: the Document Store Adapter's
`insert(collection, record) -> identifier` (`create_document` in `database.py`,
which is not under src/): persists the record under a fresh nonempty
store-assigned identifier and returns that identifier. -/
def create_document (s : DbState) (d : RawDoc) : String × DbState :=
  let id := "oid" ++ toString s.nextId
  (id, { product := s.product ++ [(id, d)], nextId := s.nextId + 1 })

/-- A conjunctive equality filter over the `product` collection, as built by
`list_products` (main.py lines 61-67). -/
structure ProductQuery where
  line : Option String
  category : Option String
  featured : Option Bool
deriving DecidableEq, Repr

/-- A document matches the filter when it satisfies every provided equality. -/
def matchesQuery (q : ProductQuery) (d : RawDoc) : Bool :=
  (match q.line with | none => true | some v => d.line == v)
  && (match q.category with | none => true | some v => d.category == v)
  && (match q.featured with | none => true | some v => d.featured == v)

/-- Modelled from the spec: the Document Store Adapter's
`query(collection, filter) -> sequence of records` (`get_documents` in
`database.py`, not under src/): returns the stored records of the collection
that satisfy every equality constraint of the filter. -/
def get_documents (s : DbState) (q : ProductQuery) : List (String × RawDoc) :=
  s.product.filter (fun e => matchesQuery q e.2)

/-- The two error kinds of the endpoint layer: the fixed store-unavailable
internal error (`HTTPException(500, "Database not configured")`) and a
validation failure raised by a pydantic schema. -/
inductive ApiError where
  | dbNotConfigured
  | validationError (field : String)
deriving DecidableEq, Repr

/-- Strict-validate every queried document in order, as the loop of
`list_products` (main.py lines 72-77) does: the first failing record aborts
the whole request. -/
def validateAll : List RawDoc → Except ApiError (List RawDoc)
  | [] => .ok []
  | d :: ds =>
    if productValidate d then
      match validateAll ds with
      | .ok res => .ok (d :: res)
      | .error e => .error e
    else .error (.validationError d.title)

/-- Query-parameter handling of `list_products` (main.py lines 61-67): a
`line` or `category` value only becomes a filter when truthy (present and
nonempty), while `featured` becomes a filter whenever it is not `None`. -/
def buildQuery (line category : Option String) (featured : Option Bool) : ProductQuery :=
  { line := match line with
      | none => none
      | some l => if l = "" then none else some l
    category := match category with
      | none => none
      | some c => if c = "" then none else some c
    featured := featured }

/-- Endpoint `GET /api/products` (main.py lines 55-77): 500 when the store handle is
unset; otherwise query with the conjunctive filter, strip the store-assigned
`_id`, and strict-validate every record. -/
def listProducts (db : Option DbState) (line category : Option String)
    (featured : Option Bool) : Except ApiError (List RawDoc) :=
  match db with
  | none => .error .dbNotConfigured
  | some s =>
    let docs := (get_documents s (buildQuery line category featured)).map (fun e => e.2)
    validateAll docs

/-- Endpoint `POST /api/products` (main.py lines 79-84): the framework validates the
body against `ProductCreate` before the handler runs; the handler then raises
the store-unavailable error when the handle is unset, else inserts the record
and returns the new identifier together with the new store state. -/
def createProduct (db : Option DbState) (p : RawPayload) :
    Except ApiError (String × DbState) :=
  match productCreateValidate p with
  | none => .error (.validationError "ProductCreate")
  | some doc =>
    match db with
    | none => .error .dbNotConfigured
    | some s => .ok (create_document s doc)

/-- The default of `SeedRequest.count` (main.py line 89). -/
def seedDefaultCount : Nat := 6

/-- The hardcoded sample list of `seed_products` (main.py lines 96-193). -/
def sampleProducts : List RawDoc := [
  { title := "Swolez Power Tee"
    description := some "Breathable performance tee with four-way stretch"
    price := 28
    category := "tops"
    line := "gymwear"
    images := ["https://images.unsplash.com/photo-1592878849127-30a153c9fd1f?auto=format&fit=crop&w=1200&q=60"]
    colors := ["black", "white", "charcoal"]
    sizes := ["S", "M", "L", "XL"]
    in_stock := true
    featured := true
    rating := some (mkRat 23 5)
    tags := ["tee", "gym", "stretch"] },
  { title := "Swolez Street Hoodie"
    description := some "Heavyweight fleece with minimalist embroidery"
    price := 64
    category := "hoodies"
    line := "streetwear"
    images := ["https://images.unsplash.com/photo-1548883354-7622d03aca9b?auto=format&fit=crop&w=1200&q=60"]
    colors := ["ash", "black", "forest"]
    sizes := ["M", "L", "XL", "XXL"]
    in_stock := true
    featured := true
    rating := some (mkRat 24 5)
    tags := ["hoodie", "street", "fleece"] },
  { title := "Swolez Flex Joggers"
    description := some "Tapered athletic fit with zip pockets"
    price := 49
    category := "bottoms"
    line := "gymwear"
    images := ["https://images.unsplash.com/photo-1559631688-59c1ff16398d?auto=format&fit=crop&w=1200&q=60"]
    colors := ["black", "navy"]
    sizes := ["S", "M", "L", "XL"]
    in_stock := true
    featured := false
    rating := some (mkRat 9 2)
    tags := ["joggers", "zip", "athletic"] },
  { title := "Swolez Cargo Pants"
    description := some "Relaxed cargo with reinforced knees"
    price := 59
    category := "bottoms"
    line := "streetwear"
    images := ["https://images.unsplash.com/photo-1539533018447-62fc810b90d9?auto=format&fit=crop&w=1200&q=60"]
    colors := ["khaki", "black"]
    sizes := ["S", "M", "L", "XL", "XXL"]
    in_stock := true
    featured := false
    rating := some (mkRat 22 5)
    tags := ["cargo", "street"] },
  { title := "Swolez Lift Beanie"
    description := some "Rib-knit beanie with woven label"
    price := 18
    category := "accessories"
    line := "streetwear"
    images := ["https://images.unsplash.com/photo-1516571137133-1be29e37143a?auto=format&fit=crop&w=1200&q=60"]
    colors := ["black", "oxblood"]
    sizes := []
    in_stock := true
    featured := false
    rating := some (mkRat 21 5)
    tags := ["beanie", "winter"] },
  { title := "Swolez Mesh Tank"
    description := some "Ultra-light mesh for max airflow"
    price := 24
    category := "tops"
    line := "gymwear"
    images := ["https://images.unsplash.com/photo-1540573133985-87b6da6d54a9?auto=format&fit=crop&w=1200&q=60"]
    colors := ["white", "black"]
    sizes := ["S", "M", "L"]
    in_stock := true
    featured := false
    rating := some (mkRat 43 10)
    tags := ["tank", "mesh", "breathable"] }]

/-- Endpoint `POST /api/seed` (main.py lines 91-199) for a non-negative requested
count: 500 when the store handle is unset; otherwise insert the first
`count` sample records (`sample[: req.count]`), counting one per insert,
and return the number created together with the new store state. -/
def seedProducts (db : Option DbState) (count : Nat) :
    Except ApiError (Nat × DbState) :=
  match db with
  | none => .error .dbNotConfigured
  | some s =>
    let items := sampleProducts.take count
    .ok (items.length, items.foldl (fun acc d => (create_document acc d).2) s)

/-- The store handle as seen by `GET /test`: a database name plus the result
of `db.list_collection_names()`, which may raise (an `Except.error` carries
the exception's message `str(e)`). -/
structure TestDb where
  name : String
  collections : Except String (List String)
deriving Repr

/-- The diagnostic payload returned by `GET /test` (main.py lines 27-34). -/
structure TestResponse where
  backend : String
  database : String
  database_url : Option String
  database_name : Option String
  connection_status : String
  collections : List String
deriving DecidableEq, Repr

/-- Endpoint `GET /test` (main.py lines 25-51), a total function: every store state —
unset handle, reachable store, or a store whose collection listing raises —
produces a 200 diagnostic payload; the listing error is truncated to 80
characters and rendered into the `database` status string. -/
def testDatabase (db : Option TestDb) (databaseUrlSet : Bool) : TestResponse :=
  match db with
  | none =>
    { backend := "✅ Running"
      database := "⚠️  Available but not initialized"
      database_url := none
      database_name := none
      connection_status := "Not Connected"
      collections := [] }
  | some d =>
    match d.collections with
    | .ok cols =>
      { backend := "✅ Running"
        database := "✅ Connected & Working"
        database_url := some (if databaseUrlSet then "✅ Set" else "❌ Not Set")
        database_name := some d.name
        connection_status := "Connected"
        collections := cols.take 10 }
    | .error e =>
      { backend := "✅ Running"
        database := "⚠️  Connected but Error: " ++ e.take 80
        database_url := some (if databaseUrlSet then "✅ Set" else "❌ Not Set")
        database_name := some d.name
        connection_status := "Connected"
        collections := [] }

/-! Concrete request bodies, documents and store states used to instantiate
the theorems below. -/

/-- A `POST /api/products` body with a negative price and an out-of-range
rating, but valid enumeration fields. -/
def negPricePayload : RawPayload :=
  { title := "Bargain Tee", price := -1, category := "tops", line := "gymwear",
    rating := some 9 }

/-- The document that the relaxed write schema produces for
`negPricePayload` (defaults materialised, bounds never checked). -/
def negPriceDoc : RawDoc :=
  { title := "Bargain Tee", description := none, price := -1, category := "tops",
    line := "gymwear", images := [], colors := [], sizes := [], in_stock := true,
    featured := false, rating := some 9, tags := [] }

/-- A fully valid request body (valid enums, no optional fields). -/
def validPayload : RawPayload :=
  { title := "Plain Tee", price := 10, category := "tops", line := "gymwear" }

/-- The document the relaxed write schema produces for `validPayload`;
it also passes the strict read schema (no images, no rating). -/
def validDoc : RawDoc :=
  { title := "Plain Tee", description := none, price := 10, category := "tops",
    line := "gymwear", images := [], colors := [], sizes := [], in_stock := true,
    featured := false, rating := none, tags := [] }

/-- A `POST /api/products` body whose `images` entry is not a well-formed
URL; the relaxed write schema accepts it. -/
def pBadImg : RawPayload :=
  { title := "Mystery Cap", price := 1, category := "accessories",
    line := "streetwear", images := some ["not a url"] }

/-- The document stored for `pBadImg`: it fails the strict read schema. -/
def badImgDoc : RawDoc :=
  { title := "Mystery Cap", description := none, price := 1,
    category := "accessories", line := "streetwear", images := ["not a url"],
    colors := [], sizes := [], in_stock := true, featured := false,
    rating := none, tags := [] }

/-- The store state after inserting `pBadImg` into the empty store. -/
def badImgDb : DbState := { product := [("oid0", badImgDoc)], nextId := 1 }

/-- A strict-valid hoodie document (featured). -/
def docHoodie : RawDoc :=
  { title := "Demo Hoodie", description := none, price := 50,
    category := "hoodies", line := "streetwear",
    images := ["http://img.demo/h"], colors := ["black"], sizes := ["M"],
    in_stock := true, featured := true, rating := some 4, tags := [] }

/-- A strict-valid tee document (not featured). -/
def docTee : RawDoc :=
  { title := "Demo Tee", description := none, price := 20,
    category := "tops", line := "gymwear",
    images := ["http://img.demo/t"], colors := ["white"], sizes := ["S"],
    in_stock := true, featured := false, rating := none, tags := [] }

/-- A store holding one hoodie and one tee. -/
def twoDocDb : DbState :=
  { product := [("id1", docHoodie), ("id2", docTee)], nextId := 2 }

/-- A store holding one strict-valid document and one whose `images` entry
is not a well-formed URL. -/
def mixedDb : DbState :=
  { product := [("id1", docTee), ("id2", badImgDoc)], nextId := 2 }

/-- A `POST /api/products` body whose category is outside the enumeration. -/
def pBadCat : RawPayload :=
  { title := "Odd Shoe", price := 5, category := "shoes", line := "gymwear" }

/-! Helper lemmas about the embedded operations. -/

/-- When every queried record passes the strict schema, the validation loop
of `list_products` returns exactly the queried records. -/
theorem validateAll_of_all {ds : List RawDoc} (h : ds.all productValidate = true) :
    validateAll ds = .ok ds := by
  induction ds with
  | nil => rfl
  | cons d ds ih =>
    rw [List.all_cons, Bool.and_eq_true] at h
    simp only [validateAll]
    rw [if_pos h.1, ih h.2]

/-- When some queried record fails the strict schema, the validation loop of
`list_products` aborts with a validation error. -/
theorem validateAll_error_of_not_all {ds : List RawDoc}
    (h : ds.all productValidate = false) :
    ∃ t, validateAll ds = .error (.validationError t) := by
  induction ds with
  | nil => simp at h
  | cons d ds ih =>
    rw [List.all_cons] at h
    cases hv : productValidate d with
    | false =>
      refine ⟨d.title, ?_⟩
      simp only [validateAll]
      rw [if_neg (by simp [hv])]
    | true =>
      rw [hv, Bool.true_and] at h
      obtain ⟨t, ht⟩ := ih h
      refine ⟨t, ?_⟩
      simp only [validateAll]
      rw [if_pos hv, ht]

/-- The validation loop succeeds exactly on the queried records, all of which
pass the strict schema. -/
theorem validateAll_ok_eq {ds res : List RawDoc} (h : validateAll ds = .ok res) :
    res = ds ∧ ds.all productValidate = true := by
  cases hall : ds.all productValidate with
  | true =>
    rw [validateAll_of_all hall] at h
    exact ⟨(Except.ok.inj h).symm, rfl⟩
  | false =>
    obtain ⟨t, ht⟩ := validateAll_error_of_not_all hall
    rw [ht] at h
    exact absurd h (by simp)

/-- The validation loop never produces the store-unavailable error. -/
theorem validateAll_ne_dbNotConfigured (ds : List RawDoc) :
    validateAll ds ≠ .error .dbNotConfigured := by
  cases hall : ds.all productValidate with
  | true => rw [validateAll_of_all hall]; simp
  | false =>
    obtain ⟨t, ht⟩ := validateAll_error_of_not_all hall
    rw [ht]; simp

/-- A record matching a conjunctive filter satisfies every provided equality. -/
theorem matchesQuery_spec {q : ProductQuery} {d : RawDoc}
    (h : matchesQuery q d = true) :
    (∀ v, q.line = some v → d.line = v)
    ∧ (∀ v, q.category = some v → d.category = v)
    ∧ (∀ b, q.featured = some b → d.featured = b) := by
  rw [matchesQuery, Bool.and_eq_true, Bool.and_eq_true] at h
  obtain ⟨⟨h1, h2⟩, h3⟩ := h
  refine ⟨fun v hv => ?_, fun v hv => ?_, fun b hb => ?_⟩
  · rw [hv] at h1; exact eq_of_beq h1
  · rw [hv] at h2; exact eq_of_beq h2
  · rw [hb] at h3; exact eq_of_beq h3

/-- A successful `GET /api/products` returns exactly the matching records,
each of which matches the filter and passes the strict schema. -/
theorem listProducts_ok_spec {s : DbState} {line category : Option String}
    {featured : Option Bool} {docs : List RawDoc}
    (h : listProducts (some s) line category featured = .ok docs) :
    docs = (get_documents s (buildQuery line category featured)).map (fun e => e.2)
    ∧ ∀ d ∈ docs,
        matchesQuery (buildQuery line category featured) d = true
        ∧ productValidate d = true := by
  simp only [listProducts] at h
  obtain ⟨heq, hall⟩ := validateAll_ok_eq h
  subst heq
  refine ⟨rfl, fun d hd => ?_⟩
  have hval := List.all_eq_true.mp hall d hd
  simp only [get_documents] at hd
  obtain ⟨e, he, rfl⟩ := List.mem_map.mp hd
  exact ⟨(List.mem_filter.mp he).2, hval⟩

/-- Folding the sample inserts over the store appends exactly the inserted
documents to the collection. -/
theorem seedFold_map_snd (items : List RawDoc) (s : DbState) :
    ((items.foldl (fun acc d => (create_document acc d).2) s).product).map Prod.snd
      = s.product.map Prod.snd ++ items := by
  induction items generalizing s with
  | nil => simp
  | cons d ds ih =>
    rw [List.foldl_cons, ih]
    simp [create_document]

/-- Store-assigned identifiers are nonempty. -/
theorem oid_ne_empty (t : String) : ("oid" ++ t) ≠ "" := by
  intro h
  have h2 : ("oid" ++ t).data = "".data := congrArg String.data h
  simp [String.data_append] at h2

/-- With no filters provided, every record matches the query. -/
theorem matchesQuery_noFilters (d : RawDoc) :
    matchesQuery (buildQuery none none none) d = true := rfl

/-- With no filters provided, the store query keeps every record. -/
theorem filter_matches_noFilters (l : List (String × RawDoc)) :
    l.filter (fun e => matchesQuery (buildQuery none none none) e.2) = l := by
  induction l with
  | nil => rfl
  | cons a l ih => simp [List.filter_cons, matchesQuery_noFilters a.2, ih]

/-! Claim theorems. -/

set_option maxRecDepth 100000

/-- C1 (counterexample): the claim is false on the code. The body
`negPricePayload` has price `-1 < 0` and rating `9 ∉ [0, 5]`, yet
`POST /api/products` accepts it (the relaxed write schema `ProductCreate`
declares `price: float` and `rating: Optional[float]` with no bounds) and the
record is persisted into the store. -/
theorem C1_counterexample :
    negPricePayload.price < 0
    ∧ negPricePayload.rating = some 9 ∧ (5 : ℚ) < 9
    ∧ createProduct (some emptyDb) negPricePayload
        = .ok ("oid0", { product := [("oid0", negPriceDoc)], nextId := 1 }) :=
  ⟨by decide, rfl, by decide, rfl⟩

/-- C1 (amended): `POST /api/products` does not check price or rating bounds:
every body with valid `category`, `line` and `sizes` enumerations is accepted
and persisted regardless of its price or rating; the bounds `price >= 0` and
`rating ∈ [0, 5]` are enforced only by the strict read schema `Product`. -/
theorem C1_amended (p : RawPayload) (s : DbState)
    (hcat : categoryEnum.contains p.category = true)
    (hline : lineEnum.contains p.line = true)
    (hsizes : (p.sizes.getD []).all (fun z => sizeEnum.contains z) = true) :
    (∃ r, createProduct (some s) p = .ok r)
    ∧ (∀ d : RawDoc, d.price < 0 → productValidate d = false)
    ∧ (∀ (d : RawDoc) (r : ℚ), d.rating = some r → r < 0 ∨ 5 < r →
        productValidate d = false) := by
  refine ⟨?_, ?_, ?_⟩
  · unfold createProduct
    have hv : (productCreateValidate p).isSome = true := by
      unfold productCreateValidate
      rw [if_pos (show _ = true by rw [hcat, hline, hsizes]; rfl)]
      rfl
    cases hv' : productCreateValidate p with
    | none => rw [hv'] at hv; cases hv
    | some doc => exact ⟨_, rfl⟩
  · intro d hd
    have h0 : decide (0 ≤ d.price) = false := decide_eq_false (not_le.mpr hd)
    simp [productValidate, h0]
  · intro d r hr hout
    have hfail : (decide (0 ≤ r) && decide (r ≤ 5)) = false := by
      rcases hout with h | h
      · rw [decide_eq_false (not_le.mpr h), Bool.false_and]
      · rw [decide_eq_false (not_le.mpr h), Bool.and_false]
    simp [productValidate, hr, hfail]

/-- C1 (amended) instantiated at `negPricePayload` over the empty store. -/
theorem C1_amended_witness :
    (∃ r, createProduct (some emptyDb) negPricePayload = .ok r)
    ∧ (∀ d : RawDoc, d.price < 0 → productValidate d = false)
    ∧ (∀ (d : RawDoc) (r : ℚ), d.rating = some r → r < 0 ∨ 5 < r →
        productValidate d = false) :=
  C1_amended negPricePayload emptyDb (by decide) (by decide) (by decide)

/-- C2: a successful `GET /api/products` with a provided (nonempty) category
value returns only records whose category equals it, and every provided
equality filter among `line`, `category`, `featured` is satisfied by every
returned record. -/
theorem C2_conjunctive_filters (s : DbState) (line : Option String) (c : String)
    (featured : Option Bool) (docs : List RawDoc)
    (hc : c ≠ "")
    (h : listProducts (some s) line (some c) featured = .ok docs) :
    ∀ d ∈ docs, d.category = c
      ∧ (∀ l, line = some l → l ≠ "" → d.line = l)
      ∧ (∀ b, featured = some b → d.featured = b) := by
  intro d hd
  obtain ⟨-, hall⟩ := listProducts_ok_spec h
  obtain ⟨hmatch, -⟩ := hall d hd
  obtain ⟨hl, hcat, hf⟩ := matchesQuery_spec hmatch
  refine ⟨?_, ?_, hf⟩
  · apply hcat
    simp only [buildQuery]
    rw [if_neg hc]
  · intro l hl' hne
    apply hl
    rw [hl']
    simp only [buildQuery]
    rw [if_neg hne]

/-- C2 instantiated: on a store holding a hoodie and a tee, filtering by
category `hoodies` returns only the hoodie, whose category is `hoodies`. -/
theorem C2_conjunctive_filters_witness :
    docHoodie.category = "hoodies"
    ∧ (∀ l, (none : Option String) = some l → l ≠ "" → docHoodie.line = l)
    ∧ (∀ b, (none : Option Bool) = some b → docHoodie.featured = b) :=
  C2_conjunctive_filters twoDocDb none "hoodies" none [docHoodie]
    (by decide) rfl docHoodie (by simp)

/-- C3: for every store state and non-negative requested count `n`,
`POST /api/seed` succeeds, returns `created = min n 6` (6 being the length of
the built-in sample list, and also the default count), and appends exactly
the first `min n 6` sample records to the collection. -/
theorem C3_seed_bounded (s : DbState) (n : Nat) :
    ∃ s', seedProducts (some s) n = .ok (min n 6, s')
      ∧ s'.product.map Prod.snd = s.product.map Prod.snd ++ sampleProducts.take n
      ∧ s'.product.length = s.product.length + min n 6
      ∧ seedDefaultCount = 6 ∧ sampleProducts.length = 6 := by
  have hlen : (sampleProducts.take n).length = min n 6 := by
    rw [List.length_take]
    rfl
  refine ⟨sampleProducts.take n |>.foldl (fun acc d => (create_document acc d).2) s,
    ?_, seedFold_map_snd _ s, ?_, rfl, rfl⟩
  · simp only [seedProducts]
    rw [hlen]
  · have hmap := seedFold_map_snd (sampleProducts.take n) s
    have := congrArg List.length hmap
    rw [List.length_map, List.length_append, List.length_map, hlen] at this
    exact this

/-- C4: each data endpoint returns the fixed store-unavailable internal error
(derived from `HTTPException(500, "Database not configured")`) exactly when
the global store handle is unset; when the handle is set, none of them
returns that error. For `POST /api/products` the body is assumed to pass its
`ProductCreate` validation, which the framework performs before the handler
runs. -/
theorem C4_store_unavailable_iff (db : Option DbState)
    (line category : Option String) (featured : Option Bool)
    (p : RawPayload) (doc : RawDoc) (n : Nat)
    (hp : productCreateValidate p = some doc) :
    (listProducts db line category featured = .error .dbNotConfigured ↔ db = none)
    ∧ (createProduct db p = .error .dbNotConfigured ↔ db = none)
    ∧ (seedProducts db n = .error .dbNotConfigured ↔ db = none) := by
  cases db with
  | none =>
    exact ⟨by simp [listProducts], by simp [createProduct, hp], by simp [seedProducts]⟩
  | some s =>
    refine ⟨?_, ?_, ?_⟩
    · simp only [listProducts]
      constructor
      · intro h; exact absurd h (validateAll_ne_dbNotConfigured _)
      · intro h; cases h
    · simp [createProduct, hp]
    · simp [seedProducts]

/-- C4 instantiated at the unset handle (with a body passing `ProductCreate`
validation): all three endpoints return the store-unavailable error. -/
theorem C4_store_unavailable_iff_witness :
    (listProducts none none none none = .error .dbNotConfigured
      ↔ (none : Option DbState) = none)
    ∧ (createProduct none validPayload = .error .dbNotConfigured
      ↔ (none : Option DbState) = none)
    ∧ (seedProducts none 6 = .error .dbNotConfigured
      ↔ (none : Option DbState) = none) :=
  C4_store_unavailable_iff none none none none validPayload validDoc 6 rfl

/-- C5: `GET /test` is embedded as a total function, so it returns a 200
diagnostic for every store state and never raises. With no store configured
its database status is the "Available but not initialized" string; when
listing the collections raises, the error message is truncated to 80
characters and rendered into the status string of the 200 response instead
of failing the request; when the store is reachable, at most the first 10
collection names are reported. -/
theorem C5_test_never_raises (urlSet : Bool) (nm e : String) (cols : List String) :
    (testDatabase none urlSet).database = "⚠️  Available but not initialized"
    ∧ (testDatabase (some { name := nm, collections := .error e }) urlSet).database
        = "⚠️  Connected but Error: " ++ e.take 80
    ∧ (testDatabase (some { name := nm, collections := .ok cols }) urlSet).database
        = "✅ Connected & Working"
    ∧ (testDatabase (some { name := nm, collections := .ok cols }) urlSet).collections
        = cols.take 10 :=
  ⟨rfl, rfl, rfl, rfl⟩

/-- C6: the relaxed write schema accepts any `images` list (any body with
valid enumerations is accepted, whatever its images), while the strict read
schema accepts a record only if every image is a well-formed URL; `pBadImg`
is accepted on create although its stored record fails the strict schema;
and every record returned by a successful `GET /api/products` has only
well-formed URL images. -/
theorem C6_strictness_asymmetry :
    (∀ p : RawPayload,
        categoryEnum.contains p.category = true →
        lineEnum.contains p.line = true →
        ((p.sizes.getD []).all fun z => sizeEnum.contains z) = true →
        (productCreateValidate p).isSome = true)
    ∧ (∀ d : RawDoc, productValidate d = true → d.images.all isHttpUrl = true)
    ∧ (productCreateValidate pBadImg = some badImgDoc
        ∧ productValidate badImgDoc = false
        ∧ badImgDoc.images.all isHttpUrl = false)
    ∧ (∀ (db : Option DbState) (l c : Option String) (f : Option Bool)
        (docs : List RawDoc), listProducts db l c f = .ok docs →
        ∀ d ∈ docs, d.images.all isHttpUrl = true) := by
  refine ⟨?_, ?_, ⟨rfl, by decide, by decide⟩, ?_⟩
  · intro p hcat hline hsizes
    unfold productCreateValidate
    rw [if_pos (show _ = true by rw [hcat, hline, hsizes]; rfl)]
    rfl
  · intro d h
    simp only [productValidate, Bool.and_eq_true] at h
    exact h.1.2
  · intro db l c f docs h d hd
    cases db with
    | none => exact absurd h (by simp [listProducts])
    | some s =>
      obtain ⟨-, hall⟩ := listProducts_ok_spec h
      have hv := (hall d hd).2
      simp only [productValidate, Bool.and_eq_true] at hv
      exact hv.1.2

/-- C6 instantiated: `pBadImg` (non-URL image text) is accepted by the write
schema, and the records the read path returns on `twoDocDb` all have
well-formed URL images. -/
theorem C6_strictness_asymmetry_witness :
    (productCreateValidate pBadImg).isSome = true
    ∧ docTee.images.all isHttpUrl = true
    ∧ ∀ d ∈ [docHoodie, docTee], d.images.all isHttpUrl = true :=
  ⟨C6_strictness_asymmetry.1 pBadImg (by decide) (by decide) (by decide),
   C6_strictness_asymmetry.2.1 docTee (by decide),
   C6_strictness_asymmetry.2.2.2 (some twoDocDb) none none none
     [docHoodie, docTee] rfl⟩

/-- C7: a `POST /api/products` body whose category is outside
`tops, bottoms, hoodies, accessories`, or whose line is outside
`gymwear, streetwear`, is rejected with a validation error for every store
state, and no `.ok` result (hence no insert) is produced. -/
theorem C7_enum_rejected (p : RawPayload) (db : Option DbState)
    (h : categoryEnum.contains p.category = false
      ∨ lineEnum.contains p.line = false) :
    createProduct db p = .error (.validationError "ProductCreate")
    ∧ ∀ id s', createProduct db p ≠ .ok (id, s') := by
  have hcond : ¬ ((categoryEnum.contains p.category && lineEnum.contains p.line
      && ((p.sizes.getD []).all fun z => sizeEnum.contains z)) = true) := by
    intro hc
    rcases h with h | h
    · rw [h] at hc; simp at hc
    · rw [h] at hc; simp at hc
  have hv : productCreateValidate p = none := by
    unfold productCreateValidate
    rw [if_neg hcond]
  have h1 : createProduct db p = .error (.validationError "ProductCreate") := by
    simp [createProduct, hv]
  exact ⟨h1, fun id s' hc => by rw [h1] at hc; exact Except.noConfusion hc⟩

/-- C7 instantiated at the body with category "shoes". -/
theorem C7_enum_rejected_witness :
    createProduct (some emptyDb) pBadCat = .error (.validationError "ProductCreate")
    ∧ ∀ id s', createProduct (some emptyDb) pBadCat ≠ .ok (id, s') :=
  C7_enum_rejected pBadCat (some emptyDb) (Or.inl (by decide))

/-- C8 (counterexample): the claim is false as stated. `pBadImg` is a valid
`ProductCreate` body, and `POST /api/products` accepts it with the nonempty
identifier "oid0", but the subsequent unfiltered `GET /api/products` (whose
filters match the record) fails with a validation error instead of returning
the record, because the stored record fails the strict read schema. -/
theorem C8_counterexample :
    createProduct (some emptyDb) pBadImg = .ok ("oid0", badImgDb)
    ∧ "oid0" ≠ ""
    ∧ listProducts (some badImgDb) none none none
        = .error (.validationError "Mystery Cap") :=
  ⟨rfl, by decide, rfl⟩

/-- C8 (amended): for every valid `ProductCreate` body whose stored record
also passes the strict read schema, over a store whose existing records pass
it, `POST /api/products` returns a nonempty identifier, and a subsequent
unfiltered `GET /api/products` returns the record (appended after the
existing ones, the store-assigned identifier stripped by construction of the
read path) with defaults normalized: `in_stock=true` and `featured=false`
when omitted, and omitted list fields as empty lists. -/
theorem C8_create_then_read (s : DbState) (p : RawPayload) (doc : RawDoc)
    (hp : productCreateValidate p = some doc)
    (hstrict : productValidate doc = true)
    (hprev : (s.product.map Prod.snd).all productValidate = true) :
    ∃ id s', createProduct (some s) p = .ok (id, s')
      ∧ id ≠ ""
      ∧ listProducts (some s') none none none
          = .ok (s.product.map Prod.snd ++ [doc])
      ∧ doc ∈ s.product.map Prod.snd ++ [doc]
      ∧ (p.in_stock = none → doc.in_stock = true)
      ∧ (p.featured = none → doc.featured = false)
      ∧ (p.images = none → doc.images = [])
      ∧ (p.colors = none → doc.colors = [])
      ∧ (p.sizes = none → doc.sizes = [])
      ∧ (p.tags = none → doc.tags = []) := by
  have hdoc : doc = (⟨p.title, p.description, p.price, p.category, p.line,
      p.images.getD [], p.colors.getD [], p.sizes.getD [],
      p.in_stock.getD true, p.featured.getD false, p.rating,
      p.tags.getD []⟩ : RawDoc) := by
    unfold productCreateValidate at hp
    split at hp
    · exact (Option.some.inj hp).symm
    · exact absurd hp (by simp)
  refine ⟨"oid" ++ toString s.nextId, (create_document s doc).2,
    ?_, oid_ne_empty _, ?_, by simp, fun h0 => by simp [hdoc, h0],
    fun h0 => by simp [hdoc, h0], fun h0 => by simp [hdoc, h0],
    fun h0 => by simp [hdoc, h0], fun h0 => by simp [hdoc, h0],
    fun h0 => by simp [hdoc, h0]⟩
  · simp only [createProduct, hp]
    rfl
  · simp only [listProducts, get_documents]
    rw [filter_matches_noFilters]
    have hmap : ((create_document s doc).2.product).map (fun e => e.2)
        = s.product.map Prod.snd ++ [doc] := by
      simp [create_document]
    rw [hmap]
    apply validateAll_of_all
    rw [List.all_append, hprev, Bool.true_and]
    simp [hstrict]

/-- C8 (amended) instantiated at `validPayload` over the empty store. -/
theorem C8_create_then_read_witness :
    ∃ id s', createProduct (some emptyDb) validPayload = .ok (id, s')
      ∧ id ≠ ""
      ∧ listProducts (some s') none none none
          = .ok (emptyDb.product.map Prod.snd ++ [validDoc])
      ∧ validDoc ∈ emptyDb.product.map Prod.snd ++ [validDoc]
      ∧ (validPayload.in_stock = none → validDoc.in_stock = true)
      ∧ (validPayload.featured = none → validDoc.featured = false)
      ∧ (validPayload.images = none → validDoc.images = [])
      ∧ (validPayload.colors = none → validDoc.colors = [])
      ∧ (validPayload.sizes = none → validDoc.sizes = [])
      ∧ (validPayload.tags = none → validDoc.tags = []) :=
  C8_create_then_read emptyDb validPayload validDoc rfl (by decide) (by decide)

/-- C9: if any stored record matching the query fails the strict read schema,
`GET /api/products` fails the entire request with a validation error rather
than skipping the record and returning the rest. -/
theorem C9_whole_request_fails (s : DbState) (l c : Option String)
    (f : Option Bool) (d : RawDoc)
    (hmem : d ∈ (get_documents s (buildQuery l c f)).map (fun e => e.2))
    (hbad : productValidate d = false) :
    ∃ t, listProducts (some s) l c f = .error (.validationError t) := by
  simp only [listProducts]
  apply validateAll_error_of_not_all
  cases htot : ((get_documents s (buildQuery l c f)).map (fun e => e.2)).all
      productValidate with
  | false => rfl
  | true =>
    have hd := List.all_eq_true.mp htot d hmem
    rw [hd] at hbad
    exact Bool.noConfusion hbad

/-- C9 instantiated on `mixedDb`, whose second stored record has a non-URL
image: the whole unfiltered read fails. -/
theorem C9_whole_request_fails_witness :
    ∃ t, listProducts (some mixedDb) none none none
      = .error (.validationError t) :=
  C9_whole_request_fails mixedDb none none none badImgDoc (by decide) (by decide)

/-- C10: an empty-string `line` or `category` query value is treated as if
the parameter were absent (no equality filter is built, and such a request
returns every stored record), whereas `featured=false` does build an
equality filter on `featured`: only records with `featured = false` are
returned. -/
theorem C10_empty_string_vs_featured (s : DbState) (f : Option Bool) :
    (listProducts (some s) (some "") (some "") f
        = listProducts (some s) none none f)
    ∧ (∀ docs, listProducts (some s) (some "") (some "") none = .ok docs →
        docs = s.product.map Prod.snd)
    ∧ (buildQuery none none (some false)
        = { line := none, category := none, featured := some false })
    ∧ (∀ docs, listProducts (some s) none none (some false) = .ok docs →
        ∀ d ∈ docs, d.featured = false) := by
  have hbq : ∀ g : Option Bool, buildQuery (some "") (some "") g = buildQuery none none g := by
    intro g
    simp [buildQuery]
  refine ⟨?_, ?_, rfl, ?_⟩
  · simp only [listProducts, hbq]
  · intro docs h
    obtain ⟨heq, -⟩ := listProducts_ok_spec h
    rw [heq, hbq, get_documents, filter_matches_noFilters]
  · intro docs h d hd
    obtain ⟨-, hall⟩ := listProducts_ok_spec h
    exact (matchesQuery_spec (hall d hd).1).2.2 false rfl

/-- C10 instantiated on `twoDocDb`: the empty-string read returns both
stored records, while `featured=false` returns only the non-featured one. -/
theorem C10_empty_string_vs_featured_witness :
    ([docHoodie, docTee] = twoDocDb.product.map Prod.snd)
    ∧ (∀ d ∈ [docTee], d.featured = false) :=
  ⟨(C10_empty_string_vs_featured twoDocDb none).2.1 [docHoodie, docTee] rfl,
   (C10_empty_string_vs_featured twoDocDb none).2.2.2 [docTee] rfl⟩

end Swolez
